import Mathlib

/-!
Verification model of `src/escpos_jobs/jobs.py` (Python 3).

The state model (`PrinterState`, `StatePatch`, `applyPatch`, `savePatch`,
`Job.set_state`, `PrinterStateContext`) is a direct translation of the
attribute dictionary manipulation in the source.  The execution model
(`Job.process`, `Job.print`, the block handlers and `JSONJob.do_print`)
returns, for a starting state, the Python outcome (`Except PyErr Unit`),
the in-memory state afterwards, and the ordered list of printer commands
that were issued to the collaborator driver.
-/

namespace EscposJobs

/-- A value a formatting attribute can carry: the `str`, `bool` and `int`
typed class attributes of `PrinterState` in the source. -/
inductive KVal where
  | s : String → KVal
  | b : Bool → KVal
  | i : Int → KVal
deriving DecidableEq, Repr

/-- The twelve declared class attributes of `PrinterState` in the source,
with the same names. -/
structure PrinterState where
  font : String
  bold : Bool
  underline : Int
  double_height : Bool
  double_width : Bool
  custom_size : Bool
  width : Int
  height : Int
  density : Int
  invert : Bool
  smooth : Bool
  flip : Bool
deriving DecidableEq, Repr

/-- The class-level defaults of `PrinterState` in the source
(`font = a`, everything else falsy or zero). -/
def PrinterState.default : PrinterState :=
  { font := "a", bold := false, underline := 0, double_height := false,
    double_width := false, custom_size := false, width := 0, height := 0,
    density := 0, invert := false, smooth := false, flip := false }

/-- Attribute names of `PrinterState`: the key list hard-coded in
`PrinterState.get_kwargs`. -/
inductive Key where
  | font | bold | underline | double_height | double_width | custom_size
  | width | height | density | invert | smooth | flip
deriving DecidableEq, Repr

/-- `getattr(state, k)` for a declared attribute. -/
def PrinterState.get : PrinterState → Key → KVal
  | st, .font => .s st.font
  | st, .bold => .b st.bold
  | st, .underline => .i st.underline
  | st, .double_height => .b st.double_height
  | st, .double_width => .b st.double_width
  | st, .custom_size => .b st.custom_size
  | st, .width => .i st.width
  | st, .height => .i st.height
  | st, .density => .i st.density
  | st, .invert => .b st.invert
  | st, .smooth => .b st.smooth
  | st, .flip => .b st.flip

/-- A kwargs dictionary over the declared `PrinterState` attributes: each
field is `some v` when the key is present in the dictionary and `none`
when it is absent.  This is the shape of the `kwargs` of `Job.set_state`
and of the `was` dictionary of `PrinterStateContext`. -/
structure StatePatch where
  font : Option String := none
  bold : Option Bool := none
  underline : Option Int := none
  double_height : Option Bool := none
  double_width : Option Bool := none
  custom_size : Option Bool := none
  width : Option Int := none
  height : Option Int := none
  density : Option Int := none
  invert : Option Bool := none
  smooth : Option Bool := none
  flip : Option Bool := none
deriving DecidableEq, Repr

/-- Dictionary membership view of a `StatePatch`: `some v` exactly for the
keys present in the dictionary. -/
def StatePatch.get : StatePatch → Key → Option KVal
  | p, .font => p.font.map .s
  | p, .bold => p.bold.map .b
  | p, .underline => p.underline.map .i
  | p, .double_height => p.double_height.map .b
  | p, .double_width => p.double_width.map .b
  | p, .custom_size => p.custom_size.map .b
  | p, .width => p.width.map .i
  | p, .height => p.height.map .i
  | p, .density => p.density.map .i
  | p, .invert => p.invert.map .b
  | p, .smooth => p.smooth.map .b
  | p, .flip => p.flip.map .b

/-- The setattr loop of `Job.set_state`: for each key present in `kwargs`,
set that attribute of the state; attributes not named keep their value. -/
def applyPatch (st : PrinterState) (p : StatePatch) : PrinterState :=
  { font := p.font.getD st.font,
    bold := p.bold.getD st.bold,
    underline := p.underline.getD st.underline,
    double_height := p.double_height.getD st.double_height,
    double_width := p.double_width.getD st.double_width,
    custom_size := p.custom_size.getD st.custom_size,
    width := p.width.getD st.width,
    height := p.height.getD st.height,
    density := p.density.getD st.density,
    invert := p.invert.getD st.invert,
    smooth := p.smooth.getD st.smooth,
    flip := p.flip.getD st.flip }

/-- The `was` dictionary computed by `PrinterStateContext.__enter__`: for
each key of the override kwargs, the current value of that attribute
(`getattr(self.job.state, k)`), and nothing for any other key. -/
def savePatch (st : PrinterState) (p : StatePatch) : StatePatch :=
  { font := p.font.map (fun _ => st.font),
    bold := p.bold.map (fun _ => st.bold),
    underline := p.underline.map (fun _ => st.underline),
    double_height := p.double_height.map (fun _ => st.double_height),
    double_width := p.double_width.map (fun _ => st.double_width),
    custom_size := p.custom_size.map (fun _ => st.custom_size),
    width := p.width.map (fun _ => st.width),
    height := p.height.map (fun _ => st.height),
    density := p.density.map (fun _ => st.density),
    invert := p.invert.map (fun _ => st.invert),
    smooth := p.smooth.map (fun _ => st.smooth),
    flip := p.flip.map (fun _ => st.flip) }

/-- A primitive command issued to the collaborator printer driver.
`set` carries the full twelve-attribute state, because `Job.set_state`
always calls `printer.set` with the complete `get_kwargs` dictionary. -/
inductive Cmd where
  | set : PrinterState → Cmd
  | textln : String → Cmd
  | image : String → Cmd
  | ln : Cmd
  | cut : Cmd
deriving DecidableEq, Repr

/-- A Python exception, identified by class and message. -/
inductive PyErr where
  | typeError : String → PyErr
  | keyError : String → PyErr
  | attributeError : String → PyErr
deriving DecidableEq, Repr

/-- `Job.set_state`: run the setattr loop over the kwargs, then issue
`printer.set` with the full kwargs of the resulting state. -/
def Job.set_state (st : PrinterState) (kwargs : StatePatch) :
    PrinterState × List Cmd :=
  let st1 := applyPatch st kwargs
  (st1, [Cmd.set st1])

/-- `PrinterStateContext.__enter__`: record in `was` the current value of
exactly the overridden keys, then apply the override through
`Job.set_state`.  Returns the new state, the saved dictionary and the
commands issued. -/
def PrinterStateContext.enter (st : PrinterState) (kwargs : StatePatch) :
    PrinterState × StatePatch × List Cmd :=
  let was := savePatch st kwargs
  let s1 := Job.set_state st kwargs
  (s1.1, was, s1.2)

/-- `PrinterStateContext.__exit__`: re-apply the saved dictionary through
`Job.set_state`, unconditionally of how the block ended. -/
def PrinterStateContext.exit (st : PrinterState) (was : StatePatch) :
    PrinterState × List Cmd :=
  Job.set_state st was

/-- Outcome of running a piece of the interpreter from a given state:
normal return or exception, the in-memory state afterwards, and the
printer commands issued, in order. -/
abbrev Res := Except PyErr Unit × PrinterState × List Cmd

/-- Python with-statement semantics for a `PrinterStateContext` used as a
context manager: `__enter__` runs, then the body, then `__exit__` runs on
every exit path; since `__exit__` returns `None` (falsy), an exception
from the body is re-raised after `__exit__` completes. -/
def withStateContext (st : PrinterState) (kwargs : StatePatch)
    (body : PrinterState → Res) : Res :=
  let entered := PrinterStateContext.enter st kwargs
  let r := body entered.1
  let exited := PrinterStateContext.exit r.2.1 entered.2.1
  (r.1, exited.1, entered.2.2 ++ r.2.2 ++ exited.2)

/-- A content node of the document tree: a single-entry dictionary from an
action name to either a scalar string payload (leaf) or an ordered list of
child nodes (block). -/
inductive Node where
  | leaf : String → String → Node
  | block : String → List Node → Node

/-- The value of a node dictionary entry as the handler would receive it:
either the scalar payload or the child list. -/
abbrev PyArg := String ⊕ List Node

/-- Action name of a node: the key of its single dictionary entry. -/
def Node.name : Node → String
  | .leaf n _ => n
  | .block n _ => n

/-- Value of the single dictionary entry of a node. -/
def Node.args : Node → PyArg
  | .leaf _ p => .inl p
  | .block _ cs => .inr cs

/-- Message of the TypeError raised when subscripting a dict view. -/
def dictItemsMsg : String := "dict_items object is not subscriptable"

/-- Evaluating `msg.items()[0]` in Python 3: `dict.items()` returns a
`dict_items` view object, and view objects define no `__getitem__`, so the
subscription raises a TypeError for every dictionary and never yields a
value; the result type `Empty` records that no value is ever produced. -/
def dictItemsSubscript (_msg : Node) (_i : Nat) : Except PyErr Empty :=
  .error (.typeError dictItemsMsg)

/-- `Job.process`: the first line `action_name, args = msg.items()[0]`
raises unconditionally in Python 3, so the registry lookup
`self.actions[action_name]` and the handler call that follow it are
unreachable; they are modelled separately by `Job.dispatch` below. -/
def Job.process (st : PrinterState) (msg : Node) : Res :=
  match dictItemsSubscript msg 0 with
  | .error e => (.error e, st, [])
  | .ok emp => emp.elim

/-- `for c in content: self.process(c)` over a child list: an exception
from a child aborts the loop and propagates. -/
def Job.processSeq : PrinterState → List Node → Res
  | st, [] => (.ok (), st, [])
  | st, c :: rest =>
    match Job.process st c with
    | (.error e, st1, out1) => (.error e, st1, out1)
    | (.ok _, st1, out1) =>
      match Job.processSeq st1 rest with
      | (r, st2, out2) => (r, st2, out1 ++ out2)

/-- The kwargs a block handler passes to `Job.wrapper`: `bold` with
`bold=True`, `center` and `right` with an `align` keyword that names no
declared `PrinterState` attribute. -/
inductive BlockKwargs where
  | boldTrue
  | alignCenter
  | alignRight
deriving DecidableEq, Repr

/-- `Job.wrapper` defines a local function `inner` and returns it without
calling it: the value of `self.wrapper(...)` is a plain function object
that closes over the kwargs. -/
inductive FunctionObject where
  | inner : BlockKwargs → FunctionObject
deriving DecidableEq, Repr

/-- `Job.wrapper`: returns the local function `inner`, uncalled. -/
def Job.wrapper (kwargs : BlockKwargs) : FunctionObject := .inner kwargs

/-- Message of the error raised when a with statement receives a function
object (a TypeError on current Python 3; an AttributeError about
`__enter__` on older versions — an exception either way). -/
def ctxProtocolMsg : String :=
  "function object does not support the context manager protocol"

/-- Python with-statement semantics when the context expression evaluates
to a plain function object: function objects define neither `__enter__`
nor `__exit__`, so the statement raises before the body ever runs; no
attribute of the state changes and no printer command is issued. -/
def withFunctionObject (st : PrinterState) (_f : FunctionObject)
    (_body : PrinterState → Res) : Res :=
  (.error (.typeError ctxProtocolMsg), st, [])

/-- Loop body of a block handler as it would run under the with statement:
a child list is processed element by element; a scalar string would be
iterated character by character, and `process` on a one-character string
raises at `c.items()` since `str` has no `items` attribute.  Unreachable,
because `withFunctionObject` raises before entering the body. -/
def Job.blockBody (st : PrinterState) : PyArg → Res
  | .inr cs => Job.processSeq st cs
  | .inl t =>
    if t.isEmpty then (.ok (), st, [])
    else (.error (.attributeError "str object has no attribute items"), st, [])

/-- `Job.bold`: `with self.wrapper(bold=True):` around the child loop. -/
def Job.bold (st : PrinterState) (content : PyArg) : Res :=
  withFunctionObject st (Job.wrapper .boldTrue)
    (fun st1 => Job.blockBody st1 content)

/-- `Job.center`: `with self.wrapper(align=center):` around the child loop. -/
def Job.center (st : PrinterState) (content : PyArg) : Res :=
  withFunctionObject st (Job.wrapper .alignCenter)
    (fun st1 => Job.blockBody st1 content)

/-- `Job.right`: `with self.wrapper(align=right):` around the child loop. -/
def Job.right (st : PrinterState) (content : PyArg) : Res :=
  withFunctionObject st (Job.wrapper .alignRight)
    (fun st1 => Job.blockBody st1 content)

/-- Names for the bound methods stored in the action dictionary. -/
inductive Handler where
  | bold
deriving DecidableEq, Repr

/-- `Job.get_actions`: the dispatch dictionary of the source wires up only
the `bold` action. -/
def Job.get_actions : List (String × Handler) := [("bold", Handler.bold)]

/-- Invoke a registered handler on the node value. -/
def Job.runHandler (st : PrinterState) : Handler → PyArg → Res
  | .bold, args => Job.bold st args

/-- `action = self.actions[action_name]; action(args)`: the continuation of
`Job.process` that the items subscript failure makes unreachable.  A
missing key raises a KeyError naming the key. -/
def Job.dispatch (st : PrinterState) (name : String) (args : PyArg) : Res :=
  match Job.get_actions.lookup name with
  | some h => Job.runHandler st h args
  | none => (.error (.keyError name), st, [])

/-- `Job.print`: `self.process(msg)` then `self.printer.cut()`; the cut is
reached only when `process` returns normally. -/
def Job.print (st : PrinterState) (msg : Node) : Res :=
  match Job.process st msg with
  | (.error e, st1, out1) => (.error e, st1, out1)
  | (.ok _, st1, out1) => (.ok (), st1, out1 ++ [Cmd.cut])

/-- `Job.__init__`: `self.state = PrinterState(); self.set_state()` —
pushes the baseline default state to the printer once, with no kwargs. -/
def Job.init : PrinterState × List Cmd :=
  Job.set_state PrinterState.default {}

/-- `JSONJob.do_print`: `for c in self.contents: pass` — a loop whose body
is `pass`; it touches nothing and returns `None`. -/
def JSONJob.do_print : PrinterState → List Node → Res
  | st, [] => (.ok (), st, [])
  | st, _ :: rest => JSONJob.do_print st rest

/-- The spec example document for the bold block:
a `bold` block around a `printline` leaf with payload `hi`. -/
def exampleBoldDoc : Node := Node.block "bold" [Node.leaf "printline" "hi"]

/-- The spec example document for the center block:
a `center` block around two `println` leaves. -/
def exampleCenterDoc : Node :=
  Node.block "center" [Node.leaf "println" "a", Node.leaf "println" "b"]

/-- Concrete override kwargs used by witnesses: `bold=True`. -/
def pBold : StatePatch := { bold := some true }

/-- A concrete non-default state used by witnesses. -/
def stDemo : PrinterState :=
  { font := "b", bold := false, underline := 2, double_height := false,
    double_width := true, custom_size := false, width := 3, height := 4,
    density := 5, invert := false, smooth := false, flip := true }

/-- A scope body that raises, used by the error-path witness. -/
def bodyErrDemo : PrinterState → Res :=
  fun st1 => (.error (.typeError "boom"), st1, [])

/-- A scope body that returns normally, used by the error-path witness. -/
def bodyOkDemo : PrinterState → Res :=
  fun st1 => (.ok (), st1, [])

/-- Re-applying a value saved from `a` over an override of `a` recovers
`a`, one optional field at a time. -/
theorem getD_map_const {α : Type} (o : Option α) (a : α) :
    (o.map (fun _ => a)).getD (o.getD a) = a := by
  cases o <;> rfl

/-- The core save and restore algebra: applying an override and then
re-applying the values saved for exactly the overridden keys restores the
original state. -/
theorem applyPatch_savePatch (st : PrinterState) (p : StatePatch) :
    applyPatch (applyPatch st p) (savePatch st p) = st := by
  cases st
  simp [applyPatch, savePatch, getD_map_const]

/-- `JSONJob.do_print` returns normally with nothing done. -/
theorem do_print_eq (st : PrinterState) (contents : List Node) :
    JSONJob.do_print st contents = (.ok (), st, []) := by
  induction contents with
  | nil => rfl
  | cons c rest ih => simpa [JSONJob.do_print] using ih

/-- Claim C1: scope restore is an exact round trip.  For every state and
every override dictionary, entering a `PrinterStateContext` (which saves
the prior values of exactly the overridden keys) and then exiting it
(which re-applies them) yields the state from before entry, and, for
nested scopes, exiting an inner scope returns to the state as it was just
after the enclosing scope was entered, not to the absolute defaults. -/
theorem scope_restore_roundtrip :
    (∀ (st : PrinterState) (kwargs : StatePatch),
      (PrinterStateContext.exit (PrinterStateContext.enter st kwargs).1
        (PrinterStateContext.enter st kwargs).2.1).1 = st) ∧
    (∀ (st : PrinterState) (outer inner : StatePatch),
      (PrinterStateContext.exit
          (PrinterStateContext.enter
            (PrinterStateContext.enter st outer).1 inner).1
          (PrinterStateContext.enter
            (PrinterStateContext.enter st outer).1 inner).2.1).1
        = (PrinterStateContext.enter st outer).1) := by
  constructor
  · intro st kwargs
    exact applyPatch_savePatch st kwargs
  · intro st outer inner
    exact applyPatch_savePatch (PrinterStateContext.enter st outer).1 inner

/-- Claim C2: non-clobbering merge.  `Job.set_state` changes only the
attributes named in its kwargs; every attribute whose key is absent from
the kwargs keeps the value it had before the call. -/
theorem set_state_non_clobbering (st : PrinterState) (p : StatePatch)
    (k : Key) (h : p.get k = none) :
    ((Job.set_state st p).1).get k = st.get k := by
  cases k <;>
    simp only [StatePatch.get, Option.map_eq_none'] at h <;>
    simp [Job.set_state, applyPatch, PrinterState.get, h]

/-- Witness for claim C2 at a concrete input: overriding only `bold`
leaves the non-default `font` value of the state untouched. -/
theorem set_state_non_clobbering_witness :
    pBold.get Key.font = none ∧
    ((Job.set_state stDemo pBold).1).get Key.font = stDemo.get Key.font :=
  ⟨rfl, set_state_non_clobbering stDemo pBold Key.font rfl⟩

/-- Claim C3: failure-safe restoration.  When the body of an open
`PrinterStateContext` scope raises, `__exit__` still re-applies the saved
dictionary and pushes the restored state to the printer before the
exception re-raises, so the in-memory state afterwards is exactly the one
a normally returning body reaching the same state would leave. -/
theorem error_path_restores (st : PrinterState) (kwargs : StatePatch)
    (bodyE bodyO : PrinterState → Res) (e : PyErr) (st2 : PrinterState)
    (outE outO : List Cmd)
    (hE : bodyE (applyPatch st kwargs) = (.error e, st2, outE))
    (hO : bodyO (applyPatch st kwargs) = (.ok (), st2, outO)) :
    withStateContext st kwargs bodyE
      = (.error e, applyPatch st2 (savePatch st kwargs),
         Cmd.set (applyPatch st kwargs)
           :: (outE ++ [Cmd.set (applyPatch st2 (savePatch st kwargs))])) ∧
    (withStateContext st kwargs bodyO).2.1
      = (withStateContext st kwargs bodyE).2.1 := by
  constructor
  · simp [withStateContext, PrinterStateContext.enter,
      PrinterStateContext.exit, Job.set_state, hE]
  · simp [withStateContext, PrinterStateContext.enter,
      PrinterStateContext.exit, Job.set_state, hE, hO]

/-- Witness for claim C3 at a concrete input: a raising body and a normal
body over a `bold=True` scope on the default state. -/
theorem error_path_restores_witness :
    bodyErrDemo (applyPatch PrinterState.default pBold)
      = (.error (.typeError "boom"), applyPatch PrinterState.default pBold,
         []) ∧
    bodyOkDemo (applyPatch PrinterState.default pBold)
      = (.ok (), applyPatch PrinterState.default pBold, []) ∧
    (withStateContext PrinterState.default pBold bodyErrDemo
      = (.error (.typeError "boom"),
         applyPatch (applyPatch PrinterState.default pBold)
           (savePatch PrinterState.default pBold),
         Cmd.set (applyPatch PrinterState.default pBold)
           :: ([] ++ [Cmd.set (applyPatch (applyPatch PrinterState.default
                 pBold) (savePatch PrinterState.default pBold))])) ∧
     (withStateContext PrinterState.default pBold bodyOkDemo).2.1
       = (withStateContext PrinterState.default pBold bodyErrDemo).2.1) :=
  ⟨rfl, rfl,
    error_path_restores PrinterState.default pBold bodyErrDemo bodyOkDemo
      (.typeError "boom") (applyPatch PrinterState.default pBold) [] []
      rfl rfl⟩

/-- Claim C4 (code bug): at the spec example document, a `bold` block
around a `printline` leaf, `Job.print` raises the dict-items TypeError
inside `Job.process` and issues no printer command at all, instead of the
claimed sequence of style, text and cut commands. -/
theorem example_bold_doc_fails :
    Job.print PrinterState.default exampleBoldDoc
      = (.error (.typeError dictItemsMsg), PrinterState.default, []) := rfl

/-- Claim C5 (code bug): no cut command is ever emitted.  `Job.print`
raises in `Job.process` before reaching `printer.cut()`, and
`JSONJob.do_print` performs nothing, so for every document the command
stream holds zero cuts rather than exactly one after the last node. -/
theorem no_cut_emitted (st : PrinterState) (msg : Node)
    (contents : List Node) :
    Job.print st msg = (.error (.typeError dictItemsMsg), st, []) ∧
    JSONJob.do_print st contents = (.ok (), st, []) ∧
    (Job.print st msg).2.2.count Cmd.cut = 0 ∧
    (JSONJob.do_print st contents).2.2.count Cmd.cut = 0 := by
  refine ⟨rfl, do_print_eq st contents, rfl, ?_⟩
  simp [do_print_eq st contents]

/-- Claim C6 counterexample: dispatching a node whose action name has no
registry entry raises the dict-items TypeError of `Job.process`, which is
not the unknown-action KeyError the claim describes. -/
theorem unknown_action_not_keyerror :
    Job.process PrinterState.default (Node.leaf "frobnicate" "x")
      = (.error (.typeError dictItemsMsg), PrinterState.default, []) ∧
    (Except.error (PyErr.typeError dictItemsMsg) : Except PyErr Unit)
      ≠ .error (.keyError "frobnicate") :=
  ⟨rfl, by intro h; simp at h⟩

/-- Claim C6 (amended): dispatching a node whose action name has no entry
in the action registry raises an error — the TypeError from
`msg.items()[0]`, thrown before the registry lookup — and never silently
does nothing; no collaborator primitive is invoked for that node, and had
the registry lookup been reached, the missing entry would itself raise a
KeyError naming the action. -/
theorem unknown_action_no_silent_noop (st : PrinterState) (msg : Node)
    (h : Job.get_actions.lookup msg.name = none) :
    Job.process st msg = (.error (.typeError dictItemsMsg), st, []) ∧
    Job.dispatch st msg.name msg.args
      = (.error (.keyError msg.name), st, []) := by
  refine ⟨rfl, ?_⟩
  simp [Job.dispatch, h]

/-- Witness for the amended claim C6 at a concrete input: the action name
`frobnicate2` has no registry entry. -/
theorem unknown_action_no_silent_noop_witness :
    Job.get_actions.lookup (Node.leaf "frobnicate2" "x").name = none ∧
    (Job.process stDemo (Node.leaf "frobnicate2" "x")
        = (.error (.typeError dictItemsMsg), stDemo, []) ∧
     Job.dispatch stDemo (Node.leaf "frobnicate2" "x").name
         (Node.leaf "frobnicate2" "x").args
       = (.error (.keyError (Node.leaf "frobnicate2" "x").name), stDemo,
          [])) :=
  ⟨rfl, unknown_action_no_silent_noop stDemo (Node.leaf "frobnicate2" "x")
    rfl⟩

/-- Claim C7 (code bug): at the spec example document, a `center` block
around two `println` leaves, `Job.process` raises the dict-items
TypeError with no command emitted; moreover `center` has no registry
entry at all, and the `Job.center` handler itself fails at its with
statement without emitting anything or touching the state. -/
theorem example_center_doc_fails :
    Job.process PrinterState.default exampleCenterDoc
      = (.error (.typeError dictItemsMsg), PrinterState.default, []) ∧
    Job.get_actions.lookup "center" = none ∧
    Job.center PrinterState.default exampleCenterDoc.args
      = (.error (.typeError ctxProtocolMsg), PrinterState.default, []) :=
  ⟨rfl, rfl, rfl⟩

/-- Claim C8: every block handler fails at its with statement.  The value
of `self.wrapper(...)` is the plain function `inner`, never called and no
context manager, so `bold`, `center` and `right` raise before applying
any override, before processing any child, and before issuing any
command: the state is returned unchanged with an empty command list. -/
theorem wrapper_with_always_fails (st : PrinterState) (content : PyArg) :
    Job.bold st content
      = (.error (.typeError ctxProtocolMsg), st, []) ∧
    Job.center st content
      = (.error (.typeError ctxProtocolMsg), st, []) ∧
    Job.right st content
      = (.error (.typeError ctxProtocolMsg), st, []) :=
  ⟨rfl, rfl, rfl⟩

/-- Claim C9: for every message node, `Job.process` raises the TypeError
of subscripting the `dict_items` view, so the action-name extraction
fails before any registry lookup: the state is unchanged and no printer
command is issued, hence no handler ever runs through dispatch. -/
theorem process_always_typeerror (st : PrinterState) (msg : Node) :
    Job.process st msg = (.error (.typeError dictItemsMsg), st, []) := rfl

/-- Claim C10: `JSONJob.do_print` iterates its contents with a pass body
and returns normally, processing no node, changing no state attribute and
issuing no printer command — in particular no cut. -/
theorem do_print_noop (st : PrinterState) (contents : List Node) :
    JSONJob.do_print st contents = (.ok (), st, []) ∧
    (JSONJob.do_print st contents).2.2 = [] := by
  refine ⟨do_print_eq st contents, ?_⟩
  simp [do_print_eq st contents]

end EscposJobs
